import Mathlib

/- Shallow embedding of winsup/cygwin/fhandler_fifo.cc, the reader-side
   connection engine of a POSIX FIFO emulation over native named pipes.
   Platform outcomes (NtReadFile/NtWriteFile statuses, wait results,
   concurrently sampled counters) are supplied as explicit oracle inputs;
   control flow and state updates are translated from the source. -/

namespace FifoModel

/-- POSIX error conditions set via set_errno in fhandler_fifo.cc.  The
constructor eOther stands for errors mapped from platform statuses that the
source maps via seterrno-from-nt-status or GetLastError and that we do not
refine further. -/
inductive Errno where
  | enotsup
  | eagain
  | eintr
  | ebadf
  | epipe
  | emfile
  | enxio
  | eOther
  deriving DecidableEq, Repr

/-- Platform statuses distinguished by fhandler_fifo.cc.  threadCanceled and
threadSignaled stand for STATUS_THREAD_CANCELED / STATUS_THREAD_SIGNALED,
assigned by raw_write after a cancelled or signalled wait.  otherFailure
covers every status the source handles in a default branch. -/
inductive NTStatus where
  | success
  | bufferOverflow
  | pipeEmpty
  | pipeBroken
  | pipeClosing
  | threadCanceled
  | threadSignaled
  | otherFailure
  deriving DecidableEq, Repr

/-- NT_SUCCESS: a status is a success iff it is non-negative; of the statuses
we distinguish, STATUS_SUCCESS and the warning STATUS_BUFFER_OVERFLOW. -/
def NT_SUCCESS (s : NTStatus) : Bool :=
  s == .success || s == .bufferOverflow

/-- STATUS_PIPE_IS_CLOSED (fhandler_fifo.cc lines 54-60): used only by the
writer side; STATUS_PIPE_CLOSING, STATUS_PIPE_BROKEN or STATUS_PIPE_EMPTY. -/
def STATUS_PIPE_IS_CLOSED (s : NTStatus) : Bool :=
  s == .pipeClosing || s == .pipeBroken || s == .pipeEmpty

/-- fifo_reader_id_t: the self-identity of a reader endpoint, a Windows pid
plus the address of the fhandler object (modelled as a number, used for
equality tests only). -/
structure fifo_reader_id where
  winpid : Nat
  fh : Nat
  deriving DecidableEq, Repr

/-- null_fr_id (fhandler_fifo.cc line 68): the empty owner identity. -/
def null_fr_id : fifo_reader_id := ⟨0, 0⟩

/-- The owner-field write performed by the fifo_reader thread
(fhandler_fifo.cc lines 315-334): under owner_lock, if the owner is unset the
thread writes its own identity; otherwise the field is left unchanged (the
thread either waits for cancellation or proceeds to listen). -/
def thread_func_owner_step (owner me : fifo_reader_id) : fifo_reader_id :=
  if owner = null_fr_id then me else owner

/-- The owner-field write performed by close (fhandler_fifo.cc lines
1019-1022): under owner_lock, the owner field is cleared iff it currently
holds this endpoint's own identity. -/
def close_owner_step (owner me : fifo_reader_id) : fifo_reader_id :=
  if owner = me then null_fr_id else owner

/-- Shared state consulted by the reader-open path: the process-tree-wide
count of open reader endpoints for this FIFO name, and the manual-reset
read_ready event. -/
structure SharedSt where
  nreaders : Nat
  readReady : Bool
  deriving DecidableEq, Repr

/-- Result of fhandler_fifo::open on the reader path: the return value (1 on
success, 0 on failure), the errno set on failure, and the shared state as the
call leaves it. -/
structure OpenResult where
  ret : Int
  errno : Option Errno
  shared : SharedSt
  deriving DecidableEq, Repr

/-- Reader path of fhandler_fifo::open (fhandler_fifo.cc lines 557-612).
After arming read_ready, the code takes reader_lock and fails with ENOTSUP if
another reader already holds the name (get_nreaders () > 0); on that failure
the error path resets read_ready only when the reader count is zero, so the
first reader's read_ready stays armed.  connectErr abstracts the rest of the
open (duplexer connect or wait for write_ready): none means it succeeded, in
which case nreaders is incremented; some e means it failed with errno e and
the same error path runs. -/
def fifo_open_reader (s : SharedSt) (connectErr : Option Errno) : OpenResult :=
  let s1 : SharedSt := { s with readReady := true }
  if 0 < s1.nreaders then
    ⟨0, some .enotsup, if s1.nreaders = 0 then { s1 with readReady := false } else s1⟩
  else
    match connectErr with
    | none => ⟨1, none, { s1 with nreaders := s1.nreaders + 1 }⟩
    | some e => ⟨0, some e, if s1.nreaders = 0 then { s1 with readReady := false } else s1⟩

/-- States of a fifo_client_handler (fc_listening, fc_connected,
fc_invalid). -/
inductive ClientState where
  | fc_listening
  | fc_connected
  | fc_invalid
  deriving DecidableEq, Repr

/-- One fifo_client_handler entry: its state, and the completion mode of its
native pipe handle (true means the handle is in non-blocking
FILE_PIPE_COMPLETE_OPERATION mode, false means blocking
FILE_PIPE_QUEUE_OPERATION mode). -/
structure ClientEntry where
  state : ClientState
  nonblockingMode : Bool
  deriving DecidableEq, Repr

/-- Endpoint-level connection state touched by record_connection: the
write_ready event and the connected-writer count nconnected. -/
structure ConnSt where
  writeReady : Bool
  nconnected : Nat
  deriving DecidableEq, Repr

/-- fhandler_fifo::record_connection (fhandler_fifo.cc lines 289-296): arms
write_ready, marks the entry fc_connected, increments nconnected and calls
set_pipe_non_blocking (fc.h, true) — the literal true, not the endpoint's own
non-blocking flag, which is passed here only so the spec's claim about it can
be stated. -/
def record_connection (endpointNonblocking : Bool) (s : ConnSt) (fc : ClientEntry) :
    ConnSt × ClientEntry :=
  (⟨true, s.nconnected + 1⟩, ⟨.fc_connected, true⟩)

/-- MAX_CLIENTS: hard cap of the client handler table.  Modelled from the
spec: the constant lives in fhandler.h, which is not part of src/; the spec
only says the table is bounded by a hard cap, so the value is fixed here at
the header's conventional 64 and no theorem depends on it. -/
def MAX_CLIENTS : Nat := 64

/-- Result of add_client_handler: the int return value, the errno set on
failure, the table afterwards, and whether create_pipe_instance was ever
invoked. -/
structure AddResult where
  ret : Int
  errno : Option Errno
  table : List ClientEntry
  createCalled : Bool
  deriving DecidableEq, Repr

/-- fhandler_fifo::add_client_handler (fhandler_fifo.cc lines 254-278): at
capacity it sets EMFILE and returns -1 before create_pipe_instance is called
and without touching the table; otherwise it creates a pipe instance (in
blocking mode; createOk abstracts whether creation succeeds) and appends a
listening entry. -/
def add_client_handler (table : List ClientEntry) (createOk : Bool) : AddResult :=
  if table.length = MAX_CLIENTS then ⟨-1, some .emfile, table, false⟩
  else if createOk then ⟨0, none, table ++ [⟨.fc_listening, false⟩], true⟩
  else ⟨-1, some .eOther, table, true⟩

/-- Outcome of the listen step of one fifo_reader thread iteration
(fhandler_fifo.cc lines 363-428): the connect completed; or cancellation won
and the forced bogus connect landed; or cancellation won but a genuine
connection was made under our nose; or cancellation won and the pending entry
is discarded; or some other status occurred. -/
inductive ListenOutcome where
  | success
  | canceledBogusOk
  | canceledUnderNose
  | canceledDiscard
  | otherFail
  deriving DecidableEq, Repr

/-- Result of one owner-branch iteration of fhandler_fifo::thread_func: the
engine either terminates (goto canceled) or loops again, with the resulting
connection state and table. -/
inductive OwnerIterResult where
  | canceledEngine (s : ConnSt) (table : List ClientEntry)
  | connectedLoop (s : ConnSt) (table : List ClientEntry)
  | canceledAfterRecord (s : ConnSt) (table : List ClientEntry)
  | canceledAfterDiscard (s : ConnSt) (table : List ClientEntry)
  | transientLoop (s : ConnSt) (table : List ClientEntry)
  deriving DecidableEq, Repr

/-- One iteration of the owner branch of fhandler_fifo::thread_func
(fhandler_fifo.cc lines 336-433): under the client lock, delete all
fc_invalid entries; call add_client_handler, and goto canceled if it fails;
otherwise listen on the new entry and dispatch on the outcome, recording the
connection (record_connection) or deleting the pending entry. -/
def thread_func_owner_iter (endpointNonblocking : Bool) (s : ConnSt)
    (table : List ClientEntry) (createOk : Bool) (listen : ListenOutcome) :
    OwnerIterResult :=
  let cleaned := table.filter fun c => c.state != .fc_invalid
  let ar := add_client_handler cleaned createOk
  if ar.ret < 0 then .canceledEngine s cleaned
  else
    match listen with
    | .success =>
        let rc := record_connection endpointNonblocking s ⟨.fc_listening, false⟩
        .connectedLoop rc.1 (cleaned ++ [rc.2])
    | .canceledBogusOk => .canceledAfterDiscard s cleaned
    | .canceledUnderNose =>
        let rc := record_connection endpointNonblocking s ⟨.fc_listening, false⟩
        .canceledAfterRecord rc.1 (cleaned ++ [rc.2])
    | .canceledDiscard => .canceledAfterDiscard s cleaned
    | .otherFail => .transientLoop s cleaned

/-- fhandler_fifo::hit_eof (fhandler_fifo.cc lines 827-845): sample
nconnected under the client lock; if zero, sleep briefly and sample exactly
once more (the retry flag is cleared), and report EOF iff the second sample
is also zero.  The two samples are oracle inputs because the fifo_reader
thread mutates nconnected concurrently.  Returns the EOF verdict and the
number of samples taken. -/
def hit_eof (sample1 sample2 : Nat) : Bool × Nat :=
  if sample1 = 0 then (sample2 == 0, 2) else (false, 1)

/-- Oracle for one NtReadFile poll of one table slot in raw_read: whether the
slot's state is fc_connected (others are skipped), and the status and byte
count the platform returns for it. -/
structure ClientPoll where
  connected : Bool
  status : NTStatus
  info : Nat
  deriving DecidableEq, Repr

/-- Outcome of the polling for-loop in raw_read: data found (first entry
yielding at least one byte), an error to propagate, or nothing. -/
inductive PollRes where
  | dataFound (n : Nat)
  | errorOut (e : Errno)
  | nothingFound
  deriving DecidableEq, Repr

/-- The polling for-loop of fhandler_fifo::raw_read (fhandler_fifo.cc lines
870-911): scan connected entries in table order; STATUS_SUCCESS or
STATUS_BUFFER_OVERFLOW with a positive count returns immediately; a zero
count or STATUS_PIPE_EMPTY is skipped; STATUS_PIPE_BROKEN marks the entry
fc_invalid and decrements nconnected but scanning continues; any other status
marks the entry fc_invalid, decrements nconnected and propagates an error. -/
def pollClients : List ClientPoll → PollRes
  | [] => .nothingFound
  | c :: cs =>
    if c.connected then
      match c.status with
      | .success | .bufferOverflow =>
          if 0 < c.info then .dataFound c.info else pollClients cs
      | .pipeEmpty => pollClients cs
      | .pipeBroken => pollClients cs
      | _ => .errorOut .eOther
    else pollClients cs

/-- Outcome of the interruption checkpoint of a blocking raw_read iteration
(cygwait with cw_cancel and cw_sig_eintr): no interruption, cancellation,
or a signal whose handler did or did not request resumption. -/
inductive SigCase where
  | noSig
  | canceledSig
  | signaledHandled
  | signaledUnhandled
  deriving DecidableEq, Repr

/-- Oracle for one iteration of the raw_read retry loop: the two nconnected
samples hit_eof would observe, the per-slot poll outcomes, the interruption
checkpoint outcome, and whether the descriptor was observed closed at the
isclosed check. -/
structure ReadIterEnv where
  sample1 : Nat
  sample2 : Nat
  polls : List ClientPoll
  sig : SigCase
  closedAfter : Bool
  deriving DecidableEq, Repr

/-- Observable result of raw_read: len set to n bytes (0 meaning EOF or a
zero-length request), an error (len set to -1 with errno), thread
cancellation (never returns), or the iteration oracle ran out while the loop
would retry. -/
inductive ReadResult where
  | bytes (n : Nat)
  | error (e : Errno)
  | cancelSelf
  | outOfFuel
  deriving DecidableEq, Repr

/-- The while-loop of fhandler_fifo::raw_read (fhandler_fifo.cc lines
862-942): each iteration checks hit_eof (returning 0 bytes on EOF), polls the
connected entries, and otherwise fails with EAGAIN when non-blocking or, when
blocking, runs the interruption checkpoint (a handled signal re-drives the
loop immediately; an unhandled one fails with EINTR; cancellation never
returns), then checks isclosed (EBADF), sleeps briefly and retries. -/
def raw_read_loop (nonblocking : Bool) : List ReadIterEnv → ReadResult
  | [] => .outOfFuel
  | it :: rest =>
    if (hit_eof it.sample1 it.sample2).1 then .bytes 0
    else
      match pollClients it.polls with
      | .dataFound n => .bytes n
      | .errorOut e => .error e
      | .nothingFound =>
        if nonblocking then .error .eagain
        else
          match it.sig with
          | .canceledSig => .cancelSelf
          | .signaledHandled => raw_read_loop nonblocking rest
          | .signaledUnhandled => .error .eintr
          | .noSig =>
            if it.closedAfter then .error .ebadf
            else raw_read_loop nonblocking rest

/-- fhandler_fifo::raw_read (fhandler_fifo.cc lines 847-945): a zero-length
request returns at once with len still 0, before anything else; then, under
owner_lock, a caller whose identity is not the current owner fails with
ENOTSUP; otherwise the retry loop runs.  isOwner abstracts the comparison
get_owner () == me. -/
def raw_read (lenReq : Nat) (isOwner nonblocking : Bool)
    (iters : List ReadIterEnv) : ReadResult :=
  if lenReq = 0 then .bytes 0
  else if isOwner then raw_read_loop nonblocking iters
  else .error .enotsup

/-- Result of the wait in one raw_write chunk iteration: the write (or its
event wait) completed, or cygwait reported cancellation or a signal. -/
inductive Waitret where
  | obj0
  | canceledWait
  | signaledWait
  deriving DecidableEq, Repr

/-- Oracle for one iteration of the raw_write chunk loop: the wait outcome,
whether isclosed () observed the descriptor closed by a signal handler, and
the final NtWriteFile status and byte count. -/
structure WriteChunkEnv where
  waitret : Waitret
  closed : Bool
  status : NTStatus
  info : Nat
  deriving DecidableEq, Repr

/-- Classification of one chunk iteration: the status value the loop keeps,
the bytes transferred now, the errno after the iteration, whether SIGPIPE is
raised, and the pointer advance applied. -/
structure ChunkClass where
  status : NTStatus
  nbytesNow : Nat
  errno : Option Errno
  sigRaise : Bool
  adv : Nat
  deriving DecidableEq, Repr

/-- The status/errno classification of one iteration of the raw_write loop
(fhandler_fifo.cc lines 780-808): a cancelled wait becomes
STATUS_THREAD_CANCELED and a signalled wait STATUS_THREAD_SIGNALED; an
observed close sets EBADF; NT_SUCCESS takes io.Information (EAGAIN when it is
zero) and advances the pointer by chunk — by chunk, not by the transferred
count; STATUS_PIPE_IS_CLOSED sets EPIPE and raises SIGPIPE; anything else
maps the status to an errno. -/
def classify_write (chunk : Nat) (prevErrno : Option Errno) (e : WriteChunkEnv) :
    ChunkClass :=
  if e.waitret = .canceledWait then ⟨.threadCanceled, 0, prevErrno, false, 0⟩
  else if e.waitret = .signaledWait then ⟨.threadSignaled, 0, prevErrno, false, 0⟩
  else if e.closed then ⟨e.status, 0, some .ebadf, false, 0⟩
  else if NT_SUCCESS e.status then
    ⟨e.status, e.info, if e.info = 0 then some .eagain else prevErrno, false, chunk⟩
  else if STATUS_PIPE_IS_CLOSED e.status then ⟨e.status, 0, some .epipe, true, 0⟩
  else ⟨e.status, 0, some .eOther, false, 0⟩

/-- Mutable state of the raw_write chunk loop: the accumulated count nbytes,
the buffer-pointer offset, the (mutable) target length len, the return value
ret, the errno, whether SIGPIPE has been raised, and the last status. -/
structure WriteSt where
  nbytes : Nat
  ptrOff : Nat
  len : Nat
  ret : Int
  errno : Option Errno
  sigpipe : Bool
  status : NTStatus
  deriving DecidableEq, Repr

/-- One iteration of the raw_write loop body (fhandler_fifo.cc lines
760-813): classify the outcome, add the transferred count to nbytes, advance
the pointer, set len to 0 when nothing was transferred (terminating the
loop), and set ret to nbytes whenever nbytes is positive. -/
def raw_write_step (chunk : Nat) (st : WriteSt) (e : WriteChunkEnv) : WriteSt :=
  let c := classify_write chunk st.errno e
  { nbytes := st.nbytes + c.nbytesNow
    ptrOff := st.ptrOff + c.adv
    len := if c.nbytesNow = 0 then 0 else st.len
    ret := if 0 < st.nbytes + c.nbytesNow then ((st.nbytes + c.nbytesNow : Nat) : Int)
      else st.ret
    errno := c.errno
    sigpipe := st.sigpipe || c.sigRaise
    status := c.status }

/-- The while (nbytes < len) loop of raw_write, driven by the per-iteration
oracle list; none means the oracle ran out while the loop would continue. -/
def raw_write_loop (chunk : Nat) (st : WriteSt) : List WriteChunkEnv → Option WriteSt
  | [] => if st.nbytes < st.len then none else some st
  | e :: es =>
    if st.nbytes < st.len then raw_write_loop chunk (raw_write_step chunk st e) es
    else some st

/-- Observable result of raw_write: a return to the caller with the final
loop state (the caller receives st.ret), or thread cancellation, which never
returns. -/
inductive WriteResult where
  | retTo (st : WriteSt)
  | cancelSelf (st : WriteSt)
  deriving DecidableEq, Repr

/-- The post-loop epilogue of raw_write (fhandler_fifo.cc lines 814-820): a
signalled wait with no bytes transferred sets EINTR; a cancelled wait
unwinds through the cancellation path and never returns. -/
def raw_write_finish (st : WriteSt) : WriteResult :=
  if st.status = .threadSignaled ∧ st.ret < 0 then .retTo { st with errno := some .eintr }
  else if st.status = .threadCanceled then .cancelSelf st
  else .retTo st

/-- DEFAULT_PIPEBUFSIZE: the pipe buffer size and atomic-write threshold.
Modelled from the spec: the constant lives in a header that is not part of
src/; the spec calls it the platform's atomic-write threshold, and no theorem
depends on its value. -/
def DEFAULT_PIPEBUFSIZE : Nat := 65536

/-- max_atomic_write is initialised to DEFAULT_PIPEBUFSIZE by the
constructor (fhandler_fifo.cc line 75). -/
def max_atomic_write : Nat := DEFAULT_PIPEBUFSIZE

/-- fhandler_fifo::raw_write (fhandler_fifo.cc lines 730-821): a zero-length
write returns 0 at once; otherwise the length is split into chunks of at most
max_atomic_write (a longer non-blocking write is silently truncated to one
chunk); in blocking mode a wait event is created first (evtFail abstracts
CreateEvent failing, which returns -1); then the chunk loop runs and the
epilogue classifies the final status. -/
def raw_write (lenArg : Nat) (nonblocking evtFail : Bool)
    (envs : List WriteChunkEnv) : Option WriteResult :=
  if lenArg = 0 then some (.retTo ⟨0, 0, 0, 0, none, false, .success⟩)
  else
    let chunk := if lenArg ≤ max_atomic_write then lenArg else max_atomic_write
    let len := if lenArg ≤ max_atomic_write then lenArg
      else if nonblocking then max_atomic_write else lenArg
    if !nonblocking && evtFail then
      some (.retTo ⟨0, 0, len, -1, some .eOther, false, .success⟩)
    else
      Option.map raw_write_finish
        (raw_write_loop chunk ⟨0, 0, len, -1, none, false, .success⟩ envs)

/-- A raw_write loop state is return-consistent when ret equals the
accumulated byte count if that is positive and -1 otherwise. -/
def retConsistent (st : WriteSt) : Prop :=
  st.ret = if 0 < st.nbytes then (st.nbytes : Int) else -1

theorem retConsistent_init (L : Nat) :
    retConsistent ⟨0, 0, L, -1, none, false, .success⟩ := by
  simp [retConsistent]

theorem raw_write_step_retConsistent (chunk : Nat) (st : WriteSt) (e : WriteChunkEnv)
    (h : retConsistent st) : retConsistent (raw_write_step chunk st e) := by
  unfold retConsistent at h ⊢
  by_cases hp : 0 < st.nbytes + (classify_write chunk st.errno e).nbytesNow
  · simp [raw_write_step, hp]
  · have h0 : st.nbytes = 0 := by omega
    simp [raw_write_step, hp]
    rw [h, if_neg (by omega)]

theorem raw_write_loop_done (chunk : Nat) (st : WriteSt) (envs : List WriteChunkEnv)
    (h : ¬ st.nbytes < st.len) : raw_write_loop chunk st envs = some st := by
  cases envs <;> simp [raw_write_loop, h]

theorem raw_write_loop_retConsistent (chunk : Nat) (envs : List WriteChunkEnv) :
    ∀ st st', retConsistent st → raw_write_loop chunk st envs = some st' →
      retConsistent st' := by
  induction envs with
  | nil =>
    intro st st' h heq
    unfold raw_write_loop at heq
    by_cases hc : st.nbytes < st.len
    · simp [hc] at heq
    · simp [hc] at heq
      exact heq ▸ h
  | cons e es ih =>
    intro st st' h heq
    unfold raw_write_loop at heq
    by_cases hc : st.nbytes < st.len
    · simp [hc] at heq
      exact ih _ _ (raw_write_step_retConsistent chunk st e h) heq
    · simp [hc] at heq
      exact heq ▸ h

theorem raw_write_finish_retConsistent (stL st : WriteSt) (h : retConsistent stL)
    (heq : raw_write_finish stL = .retTo st) : retConsistent st := by
  unfold raw_write_finish at heq
  by_cases h1 : stL.status = .threadSignaled ∧ stL.ret < 0
  · rw [if_pos h1] at heq
    simp only [WriteResult.retTo.injEq] at heq
    subst heq
    exact h
  · rw [if_neg h1] at heq
    by_cases h2 : stL.status = .threadCanceled
    · rw [if_pos h2] at heq
      exact absurd heq (by simp)
    · rw [if_neg h2] at heq
      simp only [WriteResult.retTo.injEq] at heq
      subst heq
      exact h

theorem pipe_closed_status_facts (s : NTStatus) (h : STATUS_PIPE_IS_CLOSED s = true) :
    NT_SUCCESS s = false ∧ s ≠ .threadSignaled ∧ s ≠ .threadCanceled := by
  cases s <;> simp_all [NT_SUCCESS, STATUS_PIPE_IS_CLOSED]

/-- C1: while one reader endpoint of a FIFO is already open (the shared
reader count is positive), a second open for reading fails with ENOTSUP
(return 0), the reader count is unchanged (the first reader remains open) and
read_ready remains armed (the first reader remains usable). -/
theorem C1_second_reader_enotsup (s : SharedSt) (connectErr : Option Errno)
    (h : 0 < s.nreaders) :
    fifo_open_reader s connectErr = ⟨0, some .enotsup, { s with readReady := true }⟩ := by
  unfold fifo_open_reader
  simp [h, Nat.pos_iff_ne_zero.mp h]

theorem C1_witness :
    fifo_open_reader ⟨1, true⟩ none = ⟨0, some .enotsup, ⟨1, true⟩⟩ :=
  C1_second_reader_enotsup ⟨1, true⟩ none (by decide)

/-- C2: on an owning reader endpoint, when the first connected-count sample
of hit_eof is zero the count is sampled exactly once more (two samples in
all), and if the second sample is also zero the read returns 0 bytes
(end-of-file), not an error. -/
theorem C2_eof_recheck (lenReq : Nat) (nb : Bool) (it : ReadIterEnv)
    (rest : List ReadIterEnv) (hlen : 0 < lenReq) (h1 : it.sample1 = 0)
    (h2 : it.sample2 = 0) :
    (hit_eof it.sample1 it.sample2).2 = 2 ∧
      raw_read lenReq true nb (it :: rest) = .bytes 0 := by
  constructor
  · simp [hit_eof, h1]
  · unfold raw_read
    rw [if_neg (by omega)]
    simp [raw_read_loop, hit_eof, h1, h2]

theorem C2_witness :
    (hit_eof 0 0).2 = 2 ∧
      raw_read 1 true false [⟨0, 0, [], .noSig, false⟩] = .bytes 0 :=
  C2_eof_recheck 1 false ⟨0, 0, [], .noSig, false⟩ [] (by decide) (by decide) (by decide)

/-- C3: a read of positive length on a reader endpoint whose self-identity is
not the current owner fails with ENOTSUP and transfers no data. -/
theorem C3_nonowner_read_enotsup (lenReq : Nat) (nb : Bool)
    (iters : List ReadIterEnv) (h : 0 < lenReq) :
    raw_read lenReq false nb iters = .error .enotsup := by
  unfold raw_read
  rw [if_neg (by omega)]
  simp

theorem C3_witness : raw_read 1 false false [] = .error .enotsup :=
  C3_nonowner_read_enotsup 1 false [] (by decide)

/-- C4: whenever raw_write on a positive length returns to its caller, the
returned value is the accumulated byte count if at least one chunk
transferred at least one byte — even if a later chunk failed — and -1 exactly
when no bytes at all were transferred. -/
theorem C4_write_ret (lenArg : Nat) (nb evtFail : Bool)
    (envs : List WriteChunkEnv) (st : WriteSt) (hlen : 0 < lenArg)
    (h : raw_write lenArg nb evtFail envs = some (.retTo st)) :
    st.ret = if 0 < st.nbytes then (st.nbytes : Int) else -1 := by
  unfold raw_write at h
  rw [if_neg (by omega)] at h
  by_cases hev : (!nb && evtFail) = true
  · simp only [hev, if_pos, Option.some.injEq, WriteResult.retTo.injEq] at h
    subst h
    simp
  · simp only [hev, if_neg, Bool.false_eq_true, if_false] at h
    rw [Option.map_eq_some'] at h
    obtain ⟨stL, hL, hF⟩ := h
    have hcons := raw_write_loop_retConsistent _ _ _ _ (retConsistent_init _) hL
    exact raw_write_finish_retConsistent stL st hcons hF

theorem C4_witness :
    (⟨1, 1, 1, 1, none, false, .success⟩ : WriteSt).ret =
      if 0 < (⟨1, 1, 1, 1, none, false, .success⟩ : WriteSt).nbytes
      then (((⟨1, 1, 1, 1, none, false, .success⟩ : WriteSt).nbytes : Nat) : Int)
      else -1 :=
  C4_write_ret 1 false false [⟨.obj0, false, .success, 1⟩]
    ⟨1, 1, 1, 1, none, false, .success⟩ (by decide) (by decide)

/-- C5: when a chunk wait completes and the platform reports the pipe
closing, broken or empty on the writer side, raw_write sets EPIPE, raises
SIGPIPE, consumes no further chunks (the loop stops at that iteration), and
the epilogue returns to the caller. -/
theorem C5_epipe_sigpipe (chunk : Nat) (st : WriteSt) (e : WriteChunkEnv)
    (rest : List WriteChunkEnv) (hrun : st.nbytes < st.len)
    (hw : e.waitret = .obj0) (hc : e.closed = false)
    (hs : STATUS_PIPE_IS_CLOSED e.status = true) :
    raw_write_loop chunk st (e :: rest) = some (raw_write_step chunk st e) ∧
      (raw_write_step chunk st e).errno = some .epipe ∧
      (raw_write_step chunk st e).sigpipe = true ∧
      raw_write_finish (raw_write_step chunk st e) = .retTo (raw_write_step chunk st e) := by
  obtain ⟨hns, hs1, hs2⟩ := pipe_closed_status_facts e.status hs
  have hclass : classify_write chunk st.errno e = ⟨e.status, 0, some .epipe, true, 0⟩ := by
    unfold classify_write
    simp [hw, hc, hns, hs]
  have hlen0 : (raw_write_step chunk st e).len = 0 := by simp [raw_write_step, hclass]
  have hstat : (raw_write_step chunk st e).status = e.status := by
    simp [raw_write_step, hclass]
  refine ⟨?_, by simp [raw_write_step, hclass], by simp [raw_write_step, hclass], ?_⟩
  · unfold raw_write_loop
    rw [if_pos hrun]
    exact raw_write_loop_done _ _ _ (by rw [hlen0]; exact Nat.not_lt_zero _)
  · unfold raw_write_finish
    rw [if_neg (fun hcon => hs1 (hstat ▸ hcon.1)), if_neg (fun hcon => hs2 (hstat ▸ hcon))]

theorem C5_witness :
    raw_write_loop 1 ⟨0, 0, 1, -1, none, false, .success⟩ [⟨.obj0, false, .pipeBroken, 0⟩] =
        some (raw_write_step 1 ⟨0, 0, 1, -1, none, false, .success⟩
          ⟨.obj0, false, .pipeBroken, 0⟩) ∧
      (raw_write_step 1 ⟨0, 0, 1, -1, none, false, .success⟩
        ⟨.obj0, false, .pipeBroken, 0⟩).errno = some .epipe ∧
      (raw_write_step 1 ⟨0, 0, 1, -1, none, false, .success⟩
        ⟨.obj0, false, .pipeBroken, 0⟩).sigpipe = true ∧
      raw_write_finish (raw_write_step 1 ⟨0, 0, 1, -1, none, false, .success⟩
          ⟨.obj0, false, .pipeBroken, 0⟩) =
        .retTo (raw_write_step 1 ⟨0, 0, 1, -1, none, false, .success⟩
          ⟨.obj0, false, .pipeBroken, 0⟩) :=
  C5_epipe_sigpipe 1 ⟨0, 0, 1, -1, none, false, .success⟩ ⟨.obj0, false, .pipeBroken, 0⟩ []
    (by decide) (by decide) (by decide) (by decide)

/-- C6: when the client handler table (after dropping invalid entries) holds
MAX_CLIENTS entries, add_client_handler fails at once with EMFILE without
calling create_pipe_instance and without growing the table, and the
fifo_reader thread's accept loop terminates (goto canceled). -/
theorem C6_capacity_emfile (nb : Bool) (s : ConnSt) (table : List ClientEntry)
    (createOk : Bool) (listen : ListenOutcome)
    (h : (table.filter fun c => c.state != .fc_invalid).length = MAX_CLIENTS) :
    add_client_handler (table.filter fun c => c.state != .fc_invalid) createOk =
        ⟨-1, some .emfile, table.filter fun c => c.state != .fc_invalid, false⟩ ∧
      thread_func_owner_iter nb s table createOk listen =
        .canceledEngine s (table.filter fun c => c.state != .fc_invalid) := by
  have ha : add_client_handler (table.filter fun c => c.state != .fc_invalid) createOk =
      ⟨-1, some .emfile, table.filter fun c => c.state != .fc_invalid, false⟩ := by
    unfold add_client_handler
    rw [if_pos h]
  refine ⟨ha, ?_⟩
  unfold thread_func_owner_iter
  simp [ha]

theorem C6_witness :
    add_client_handler
        ((List.replicate 64 (⟨.fc_connected, false⟩ : ClientEntry)).filter
          fun c => c.state != .fc_invalid) true =
        ⟨-1, some .emfile,
          (List.replicate 64 (⟨.fc_connected, false⟩ : ClientEntry)).filter
            fun c => c.state != .fc_invalid, false⟩ ∧
      thread_func_owner_iter false ⟨false, 0⟩
          (List.replicate 64 (⟨.fc_connected, false⟩ : ClientEntry)) true .success =
        .canceledEngine ⟨false, 0⟩
          ((List.replicate 64 (⟨.fc_connected, false⟩ : ClientEntry)).filter
            fun c => c.state != .fc_invalid) :=
  C6_capacity_emfile false ⟨false, 0⟩ (List.replicate 64 ⟨.fc_connected, false⟩) true
    .success (by decide)

/-- C7 counterexample: the claim says record_connection switches the instance
handle to the endpoint's own non-blocking mode at that moment.  For an
endpoint whose non-blocking flag is false, the handle mode after
record_connection is not false: the source passes the literal true to
set_pipe_non_blocking. -/
theorem C7_cex :
    (record_connection false ⟨false, 0⟩ ⟨.fc_listening, false⟩).2.nonblockingMode ≠ false := by
  decide

/-- C7 amended: record_connection arms write_ready, marks the entry
fc_connected, increments the connected count, and switches the instance
handle to non-blocking mode unconditionally, regardless of the endpoint's own
non-blocking flag. -/
theorem C7_record_connection (nb : Bool) (s : ConnSt) (fc : ClientEntry) :
    (record_connection nb s fc).1.writeReady = true ∧
      (record_connection nb s fc).2.state = .fc_connected ∧
      (record_connection nb s fc).1.nconnected = s.nconnected + 1 ∧
      (record_connection nb s fc).2.nonblockingMode = true := by
  simp [record_connection]

/-- C8 counterexample: a chunk that succeeds with 1 byte transferred out of a
chunk size of 2 leaves the loop continuing (nbytes < len) with the buffer
pointer advanced by 2, not by the 1 byte actually transferred. -/
theorem C8_cex :
    0 < (⟨.obj0, false, .success, 1⟩ : WriteChunkEnv).info ∧
      (raw_write_step 2 ⟨0, 0, 4, -1, none, false, .success⟩
          ⟨.obj0, false, .success, 1⟩).nbytes <
        (raw_write_step 2 ⟨0, 0, 4, -1, none, false, .success⟩
          ⟨.obj0, false, .success, 1⟩).len ∧
      (raw_write_step 2 ⟨0, 0, 4, -1, none, false, .success⟩
          ⟨.obj0, false, .success, 1⟩).ptrOff ≠ 0 + 1 := by
  decide

/-- C8 amended: a chunk that completes successfully with more than zero bytes
transferred adds the transferred count to the accumulated total and advances
the buffer pointer by the fixed chunk size — which equals the transferred
count exactly when the chunk transfers completely — before the loop continues
to the next chunk. -/
theorem C8_chunk_advance (chunk : Nat) (st : WriteSt) (e : WriteChunkEnv)
    (hw : e.waitret = .obj0) (hc : e.closed = false)
    (hs : NT_SUCCESS e.status = true) (hi : 0 < e.info) :
    (raw_write_step chunk st e).nbytes = st.nbytes + e.info ∧
      (raw_write_step chunk st e).ptrOff = st.ptrOff + chunk := by
  have hclass : classify_write chunk st.errno e =
      ⟨e.status, e.info, if e.info = 0 then some .eagain else st.errno, false, chunk⟩ := by
    unfold classify_write
    simp [hw, hc, hs]
  constructor <;> simp [raw_write_step, hclass]

theorem C8_witness :
    (raw_write_step 2 ⟨0, 0, 4, -1, none, false, .success⟩
        ⟨.obj0, false, .success, 1⟩).nbytes = 0 + 1 ∧
      (raw_write_step 2 ⟨0, 0, 4, -1, none, false, .success⟩
        ⟨.obj0, false, .success, 1⟩).ptrOff = 0 + 2 :=
  C8_chunk_advance 2 ⟨0, 0, 4, -1, none, false, .success⟩ ⟨.obj0, false, .success, 1⟩
    (by decide) (by decide) (by decide) (by decide)

/-- C9: the owner record is a single identity field, so it holds at most one
non-empty owner at any time; and each of the two owner-field writes in the
source (the fifo_reader thread's claim and close's release) either leaves the
field unchanged, writes the endpoint's own identity into an empty field, or
clears the field while the endpoint itself holds it — so no endpoint ever
overwrites another endpoint's non-empty ownership. -/
theorem C9_owner_protocol (owner me : fifo_reader_id) :
    (thread_func_owner_step owner me = owner ∨
        (owner = null_fr_id ∧ thread_func_owner_step owner me = me)) ∧
      (close_owner_step owner me = owner ∨
        (owner = me ∧ close_owner_step owner me = null_fr_id)) := by
  constructor
  · by_cases h : owner = null_fr_id
    · exact Or.inr ⟨h, by simp [thread_func_owner_step, h]⟩
    · exact Or.inl (by simp [thread_func_owner_step, h])
  · by_cases h : owner = me
    · exact Or.inr ⟨h, by simp [close_owner_step, h]⟩
    · exact Or.inl (by simp [close_owner_step, h])

/-- C10: a read with requested length zero returns immediately with length
zero and no error, before the ownership check and before any loop iteration —
in particular a non-owning endpoint does not get ENOTSUP, and neither the
handler table nor the EOF logic is consulted (the result is independent of
the whole iteration oracle). -/
theorem C10_zero_len_read (own nonblocking : Bool) (iters : List ReadIterEnv) :
    raw_read 0 own nonblocking iters = .bytes 0 := by
  simp [raw_read]

end FifoModel
